import Mathlib

/-!
Shallow embedding of the keyteki card-engine sources:
the `DrawCard` class (skill computation, fate, honor state, covert,
leaves-play), the `CreepingOblivion` card's declarative play ability,
and the deck-list endpoint's projection flags.

JavaScript values are modelled as follows: a printed stat that may be a
number, `null` or `undefined` becomes `Option Int` (`none` covers both
absent encodings, which the source always treats alike); JS truthiness of
such a value is `none`/`some 0` falsy, any other number truthy.  Methods
that mutate `this` and raise events become functions returning the updated
card together with the list of events raised.
-/

namespace Keyteki

/-- Result of a skill query: the source can return a number, `undefined`
(setup/printed path with a falsy printed stat) or `null` (no printed stat
on the modifier path). -/
inductive SkillResult where
  | undef : SkillResult
  | null : SkillResult
  | num : Int → SkillResult
  deriving DecidableEq, Repr

/-- Printed data of an attached card as used by skill computation:
`parseInt(card.cardData.military_bonus)` and
`parseInt(card.cardData.political_bonus)` in the source, modelled as the
integers those strings parse to. -/
structure AttachmentData where
  military_bonus : Int
  political_bonus : Int
  deriving DecidableEq, Repr

/-- Printed card data consumed by `DrawCard` (immutable lookup table row). -/
structure CardData where
  military : Option Int
  political : Option Int
  glory : Int
  side : String
  deriving DecidableEq, Repr

/-- Runtime state of a `DrawCard`: the constructor-initialised fields that
the claims exercise, plus `phase`, standing for `this.controller.phase`. -/
structure Card where
  id : Nat
  cardData : CardData
  phase : String
  militarySkillModifier : Int
  politicalSkillModifier : Int
  fate : Int
  glory : Int
  bowed : Bool
  inConflict : Bool
  isConflict : Bool
  isDynasty : Bool
  isNew : Bool
  isHonored : Bool
  isDishonored : Bool
  stealth : Bool
  attachments : List AttachmentData
  keywords : List String
  covert : Bool
  covertTarget : Option Nat
  deriving DecidableEq, Repr

/-- The `DrawCard` constructor: modifiers and fate start at zero, all
status flags false, `glory` copied from the card data, `isConflict` /
`isDynasty` derived from `cardData.side`.  `phase` stands for the
controller's current phase and `keywords` for the card's keyword list. -/
def mkDrawCard (id : Nat) (cardData : CardData) (phase : String)
    (keywords : List String) : Card :=
  { id := id
    cardData := cardData
    phase := phase
    militarySkillModifier := 0
    politicalSkillModifier := 0
    fate := 0
    glory := cardData.glory
    bowed := false
    inConflict := false
    isConflict := cardData.side = "conflict"
    isDynasty := cardData.side = "dynasty"
    isNew := false
    isHonored := false
    isDishonored := false
    stealth := false
    attachments := []
    keywords := keywords
    covert := false
    covertTarget := none }

/-- Modelled from the spec: `BaseCard.hasKeyword` is not under `src/`; the
spec describes the keyword list as a printed attribute of the card, so the
predicate is membership in that list. -/
def hasKeyword (c : Card) (k : String) : Bool :=
  c.keywords.contains k

def isCovert (c : Card) : Bool :=
  hasKeyword c ("covert")

def hasSincerity (c : Card) : Bool :=
  hasKeyword c ("sincerity")

def hasCourtesy (c : Card) : Bool :=
  hasKeyword c ("courtesy")

/-- JS `x || undefined` on a numeric stat: yields the number when truthy
(present and nonzero), otherwise `undefined`. -/
def numOrUndef : Option Int → SkillResult
  | some n => if n = 0 then SkillResult.undef else SkillResult.num n
  | none => SkillResult.undef

/-- `_.reduce(this.attachments._wrapped, (skill, card) => skill +
parseInt(card.cardData.military_bonus), 0)`. -/
def skillFromAttachmentsMil (c : Card) : Int :=
  c.attachments.foldl (fun skill a => skill + a.military_bonus) 0

/-- The political counterpart of the attachment fold. -/
def skillFromAttachmentsPol (c : Card) : Int :=
  c.attachments.foldl (fun skill a => skill + a.political_bonus) 0

/-- `(this.isHonored ? this.glory : 0) - (this.isDishonored ? this.glory : 0)`. -/
def skillFromGlory (c : Card) : Int :=
  (if c.isHonored then c.glory else 0) - (if c.isDishonored then c.glory else 0)

/-- `DrawCard.getMilitarySkill(printed)`. -/
def getMilitarySkill (c : Card) (printed : Bool) : SkillResult :=
  if c.phase = "setup" ∨ printed then
    numOrUndef c.cardData.military
  else
    match c.cardData.military with
    | some v =>
        SkillResult.num (max 0 (v + c.militarySkillModifier +
          skillFromAttachmentsMil c + skillFromGlory c))
    | none => SkillResult.null

/-- `DrawCard.getPoliticalSkill(printed)`. -/
def getPoliticalSkill (c : Card) (printed : Bool) : SkillResult :=
  if c.phase = "setup" ∨ printed then
    numOrUndef c.cardData.political
  else
    match c.cardData.political with
    | some v =>
        SkillResult.num (max 0 (v + c.politicalSkillModifier +
          skillFromAttachmentsPol c + skillFromGlory c))
    | none => SkillResult.null

/-- Events raised by `DrawCard` state mutators via `game.raiseEvent`. -/
inductive GameEvent where
  | onCardMilitarySkillChanged (cardId : Nat) (amount : Int) (applying : Bool)
  | onCardPoliticalSkillChanged (cardId : Nat) (amount : Int) (applying : Bool)
  | onCardFateChanged (cardId : Nat) (fate : Int)
  deriving DecidableEq, Repr

/-- `DrawCard.modifyMilitarySkill(amount, applying)`: bumps the modifier
and raises `onCardMilitarySkillChanged` with the amount and flag. -/
def modifyMilitarySkill (c : Card) (amount : Int) (applying : Bool) :
    Card × List GameEvent :=
  ({ c with militarySkillModifier := c.militarySkillModifier + amount },
    [GameEvent.onCardMilitarySkillChanged c.id amount applying])

/-- `DrawCard.modifyPoliticalSkill(amount, applying)`. -/
def modifyPoliticalSkill (c : Card) (amount : Int) (applying : Bool) :
    Card × List GameEvent :=
  ({ c with politicalSkillModifier := c.politicalSkillModifier + amount },
    [GameEvent.onCardPoliticalSkillChanged c.id amount applying])

/-- `DrawCard.modifyFate(fate)`: adds, clamps at zero, and raises
`onCardFateChanged` with payload `this.fate - oldFate`. -/
def modifyFate (c : Card) (fate : Int) : Card × List GameEvent :=
  let oldFate := c.fate
  let f := c.fate + fate
  let newFate := if f < 0 then 0 else f
  ({ c with fate := newFate },
    [GameEvent.onCardFateChanged c.id (newFate - oldFate)])

/-- `DrawCard.honor()`: clears dishonor if set, else sets honor if not
already set.  The source raises no event here. -/
def honor (c : Card) : Card × List GameEvent :=
  if c.isDishonored then ({ c with isDishonored := false }, [])
  else if ¬c.isHonored then ({ c with isHonored := true }, [])
  else (c, [])

/-- `DrawCard.dishonor()`: clears honor if set, else sets dishonor if not
already set.  The source raises no event here. -/
def dishonor (c : Card) : Card × List GameEvent :=
  if c.isHonored then ({ c with isHonored := false }, [])
  else if ¬c.isDishonored then ({ c with isDishonored := true }, [])
  else (c, [])

/-- Side effects of `DrawCard.leavesPlay()` on entities other than the
card itself: `game.addHonor(controller, ...)`, `controller.drawCardsToHand(1)`
and `game.addFate(controller, 1)`. -/
structure LeavesPlayEffects where
  honorDelta : Int
  cardsDrawn : Nat
  fateGained : Int
  deriving DecidableEq, Repr

/-- `DrawCard.leavesPlay()`: resets `bowed`, `inConflict`, `new` and
`fate`; pays out +1/−1 honor for an honored/dishonored card and clears
the flag; draws a card for Sincerity and gains a fate for Courtesy; then
`resetForConflict()` clears `stealth` and `inConflict`.  Modelled from
the spec for the trailing `super.leavesPlay()` call (`BaseCard` is not
under `src/`): the spec attributes all of the resets and payouts on
leaving play to this routine and none to the base class, so the base call
leaves the modelled fields untouched. -/
def leavesPlay (c : Card) : Card × LeavesPlayEffects :=
  let c1 := { c with bowed := false, inConflict := false, isNew := false, fate := 0 }
  let c2 :=
    if c1.isHonored then { c1 with isHonored := false }
    else if c1.isDishonored then { c1 with isDishonored := false }
    else c1
  let honorDelta : Int :=
    if c1.isHonored then 1 else if c1.isDishonored then -1 else 0
  let cardsDrawn : Nat := if hasSincerity c2 then 1 else 0
  let fateGained : Int := if hasCourtesy c2 then 1 else 0
  let c3 := { c2 with stealth := false, inConflict := false }
  (c3, { honorDelta := honorDelta, cardsDrawn := cardsDrawn, fateGained := fateGained })

/-- `DrawCard.canBeBypassedByCovert()`. -/
def canBeBypassedByCovert (c : Card) : Bool :=
  ¬isCovert c

/-- `DrawCard.canUseCovertToBypass(targetCard)`. -/
def canUseCovertToBypass (src tgt : Card) : Bool :=
  isCovert src && canBeBypassedByCovert tgt

/-- `DrawCard.useCovertToBypass(targetCard)`: guard, then set the target's
`covert` flag and record the target as `this.covertTarget`.  Returns the
updated source, the updated target and the boolean result. -/
def useCovertToBypass (src tgt : Card) : Card × Card × Bool :=
  if ¬canUseCovertToBypass src tgt then (src, tgt, false)
  else
    ({ src with covertTarget := some tgt.id }, { tgt with covert := true }, true)

/-- A player as seen by the CreepingOblivion ability: only the discard
pile (a list of card ids) matters to the targeting predicates. -/
structure Player where
  discard : List Nat
  deriving DecidableEq, Repr

/-- Ability context threading the acting player and the (possibly absent)
opponent, as read from `context.player` / `context.player.opponent`. -/
structure AbilityContext where
  player : Player
  opponent : Option Player
  deriving DecidableEq, Repr

/-- Legality of the `Mine` choice of CreepingOblivion's `select` group:
`context.player.discard.length > 0`. -/
def creepingOblivionMineLegal (ctx : AbilityContext) : Bool :=
  ctx.player.discard.length > 0

/-- Legality of the opponent choice of CreepingOblivion's `select` group:
`context.player.opponent && context.player.opponent.discard.length > 0`
(falsy when there is no opponent). -/
def creepingOblivionOpponentLegal (ctx : AbilityContext) : Bool :=
  match ctx.opponent with
  | none => false
  | some opp => opp.discard.length > 0

/-- The `player` function of CreepingOblivion's dependent `cards` group:
`context.selects.select.choice === 'Mine' ? context.player :
context.player.opponent`. -/
def creepingOblivionCardsPlayer (ctx : AbilityContext) (choice : String) :
    Option Player :=
  if choice = "Mine" then some ctx.player else ctx.opponent

/-- Selection modes of a target group. -/
inductive TargetMode where
  | select : TargetMode
  | upTo : TargetMode
  deriving DecidableEq, Repr

/-- The static fields of CreepingOblivion's `cards` target group. -/
structure CardsGroupSpec where
  dependsOnGroup : String
  mode : TargetMode
  numCards : Nat
  location : String
  deriving DecidableEq, Repr

/-- The declarative `cards` group of CreepingOblivion's play ability:
`dependsOn: 'select', mode: 'upTo', numCards: 2, location: 'discard'`. -/
def creepingOblivionCardsGroup : CardsGroupSpec :=
  { dependsOnGroup := "select", mode := TargetMode.upTo, numCards := 2,
    location := "discard" }

/-- A card entry of a stored deck, as seen by the deck-list endpoint:
`enhancements` is either absent (`none`) or a list of strings. -/
structure DeckCard where
  enhancements : Option (List String)
  deriving DecidableEq, Repr

/-- A stored deck as projected by the deck-list endpoint. -/
structure Deck where
  cards : List DeckCard
  verified : Bool
  deriving DecidableEq, Repr

/-- `c.enhancements && c.enhancements[0] === ''`: an array is always
truthy in JS (even when empty), so this is "has an enhancements list
whose first entry is the empty string". -/
def cardNeedsEnhancements (c : DeckCard) : Bool :=
  match c.enhancements with
  | some l => l.head? = some ("")
  | none => false

/-- The enhancement flags computed per deck by the `GET /api/decks`
handler: `hasEnhancementsSet` starts true and is cleared when some card
has an enhancements list starting with the empty-string sentinel;
`hasEnhancements` is set when some card has an enhancements list.  The
result pairs `deck.basicRules = hasEnhancementsSet` with
`deck.notVerified = hasEnhancements && !deck.verified`. -/
def deckListFlags (d : Deck) : Bool × Bool :=
  let hasEnhancementsSet := ¬d.cards.any cardNeedsEnhancements
  let hasEnhancements := d.cards.any fun c => c.enhancements.isSome
  (hasEnhancementsSet, hasEnhancements && !d.verified)

/-! ### Concrete instances used by witnesses and counterexamples -/

/-- Sample printed data: military 3, political 1, glory 2 (the spec's own
scenario values). -/
def sampleData : CardData :=
  { military := some 3, political := some 1, glory := 2, side := "conflict" }

/-- A freshly constructed card in the conflict phase, no keywords. -/
def sampleCard : Card :=
  mkDrawCard 1 sampleData ("conflict") []

/-- The sample card with an attached +2 military / +0 political card and
honored status (the spec's effective-military-7 scenario). -/
def honoredHostCard : Card :=
  { sampleCard with
    isHonored := true
    attachments := [{ military_bonus := 2, political_bonus := 0 }] }

/-- A card whose printed military and political values are 0, during the
setup phase. -/
def zeroStatCard : Card :=
  mkDrawCard 2 { military := some 0, political := some 0, glory := 0, side := "dynasty" }
    ("setup") []

/-- The sample card, dishonored. -/
def dishonoredCard : Card :=
  { sampleCard with isDishonored := true }

/-- The sample card, honored. -/
def honoredCard : Card :=
  { sampleCard with isHonored := true }

/-- A card carrying the covert keyword. -/
def covertCard : Card :=
  mkDrawCard 7 sampleData ("conflict") [("covert")]

/-! ### Helper lemmas -/

/-- Folding addition of a projected value over a list equals the initial
accumulator plus the sum of the projections. -/
theorem foldl_add_map_sum (f : AttachmentData → Int) (init : Int)
    (l : List AttachmentData) :
    l.foldl (fun s a => s + f a) init = init + (l.map f).sum := by
  induction l generalizing init with
  | nil => simp
  | cons a t ih =>
    simp only [List.foldl_cons, List.map_cons, List.sum_cons, ih]
    ring

/-- Unfolding of the per-card sentinel test of the deck-list endpoint. -/
theorem cardNeedsEnhancements_iff (c : DeckCard) :
    cardNeedsEnhancements c = true ↔
      ∃ l, c.enhancements = some l ∧ l.head? = some ("") := by
  cases h : c.enhancements <;> simp [cardNeedsEnhancements, h]

/-! ### Claim theorems -/

/-- Claim C2: mutual exclusion of honored and dishonored is preserved by
`honor()` and `dishonor()`; `honor()` on an already-honored card changes
nothing; `honor()` on a dishonored card clears the dishonored flag without
setting the honored flag; symmetrically for `dishonor()`. -/
theorem honor_dishonor_exclusive (c : Card)
    (h : ¬(c.isHonored = true ∧ c.isDishonored = true)) :
    (¬((honor c).1.isHonored = true ∧ (honor c).1.isDishonored = true)) ∧
    (¬((dishonor c).1.isHonored = true ∧ (dishonor c).1.isDishonored = true)) ∧
    (c.isHonored = true → (honor c).1 = c) ∧
    (c.isDishonored = true →
      (honor c).1.isDishonored = false ∧ (honor c).1.isHonored = false) ∧
    (c.isDishonored = true → (dishonor c).1 = c) ∧
    (c.isHonored = true →
      (dishonor c).1.isHonored = false ∧ (dishonor c).1.isDishonored = false) := by
  cases hH : c.isHonored <;> cases hD : c.isDishonored <;>
    simp_all [honor, dishonor]

/-- Witness for C2: honoring the concrete dishonored sample card clears
its dishonored flag without setting honor. -/
theorem honor_dishonor_exclusive_witness :
    (honor dishonoredCard).1.isDishonored = false ∧
    (honor dishonoredCard).1.isHonored = false := by
  exact (honor_dishonor_exclusive dishonoredCard (by decide)).2.2.2.1 (by decide)

/-- Claim C3 counterexample: on a fresh neutral card, `honor()` then
`dishonor()` leaves the card neutral, not dishonored-only (the claim
asserts `isDishonored = true` for every starting state). -/
theorem honor_then_dishonor_counterexample :
    sampleCard.isHonored = false ∧ sampleCard.isDishonored = false ∧
    (dishonor (honor sampleCard).1).1.isDishonored = false := by
  decide

/-- Claim C3 (amended): `honor()` then `dishonor()` always leaves the card
un-honored, and leaves it dishonored exactly when it started out
dishonored-only; in particular the dishonored-only outcome holds precisely
for cards that were already dishonored. -/
theorem honor_then_dishonor (c : Card) :
    (dishonor (honor c).1).1.isHonored = false ∧
    (dishonor (honor c).1).1.isDishonored = (c.isDishonored && !c.isHonored) := by
  cases hH : c.isHonored <;> cases hD : c.isDishonored <;>
    simp [honor, dishonor, hH, hD]

/-- Claim C5: `modifyFate(delta)` sets fate to `max 0 (old + delta)` and
raises `onCardFateChanged` whose payload is the new fate minus the old
fate, i.e. the signed delta actually applied. -/
theorem modifyFate_clamps (c : Card) (delta : Int) :
    (modifyFate c delta).1.fate = max 0 (c.fate + delta) ∧
    (modifyFate c delta).2 =
      [GameEvent.onCardFateChanged c.id ((modifyFate c delta).1.fate - c.fate)] := by
  refine ⟨?_, rfl⟩
  simp only [modifyFate]
  omega

/-- Claim C7 counterexample: `honor()` mutates the card's honor state but
raises no event, so not every state mutator raises a named event. -/
theorem honor_raises_no_event_counterexample :
    sampleCard.isHonored = false ∧ (honor sampleCard).1.isHonored = true ∧
    (honor sampleCard).2 = [] := by
  decide

/-- Claim C7 (amended): `modifyFate`, `modifyMilitarySkill` and
`modifyPoliticalSkill` each raise exactly one named event whose payload
describes the mutation (the affected card, the requested amount with its
applying flag, resp. the fate delta actually applied); `honor()` and
`dishonor()` mutate the honor flags without raising any event. -/
theorem mutation_events (c : Card) (amount : Int) (applying : Bool) :
    (modifyMilitarySkill c amount applying).2 =
      [GameEvent.onCardMilitarySkillChanged c.id amount applying] ∧
    (modifyPoliticalSkill c amount applying).2 =
      [GameEvent.onCardPoliticalSkillChanged c.id amount applying] ∧
    (modifyFate c amount).2 =
      [GameEvent.onCardFateChanged c.id ((modifyFate c amount).1.fate - c.fate)] ∧
    (honor c).2 = [] ∧
    (dishonor c).2 = [] := by
  refine ⟨rfl, rfl, rfl, ?_, ?_⟩ <;>
    cases hH : c.isHonored <;> cases hD : c.isDishonored <;>
      simp [honor, dishonor, hH, hD]

/-- Claim C1: outside the setup phase and without an explicit printed
request, for a card with a printed military (resp. political) value the
skill getter returns `max 0 (printed + modifier accumulator + sum of the
attachments' matching bonuses + glory if honored − glory if dishonored)`,
and any number it returns is never negative, for any modifier magnitude. -/
theorem effectiveSkill_formula (c : Card) (h : c.phase ≠ "setup") :
    (∀ v, c.cardData.military = some v →
      getMilitarySkill c false =
        SkillResult.num (max 0 (v + c.militarySkillModifier +
          (c.attachments.map AttachmentData.military_bonus).sum +
          ((if c.isHonored then c.glory else 0) -
            (if c.isDishonored then c.glory else 0)))) ∧
      ∀ w, getMilitarySkill c false = SkillResult.num w → 0 ≤ w) ∧
    (∀ v, c.cardData.political = some v →
      getPoliticalSkill c false =
        SkillResult.num (max 0 (v + c.politicalSkillModifier +
          (c.attachments.map AttachmentData.political_bonus).sum +
          ((if c.isHonored then c.glory else 0) -
            (if c.isDishonored then c.glory else 0)))) ∧
      ∀ w, getPoliticalSkill c false = SkillResult.num w → 0 ≤ w) := by
  constructor
  · intro v hv
    have hm : getMilitarySkill c false =
        SkillResult.num (max 0 (v + c.militarySkillModifier +
          (c.attachments.map AttachmentData.military_bonus).sum +
          ((if c.isHonored then c.glory else 0) -
            (if c.isDishonored then c.glory else 0)))) := by
      simp [getMilitarySkill, h, hv, skillFromAttachmentsMil, skillFromGlory,
        foldl_add_map_sum]
    refine ⟨hm, ?_⟩
    intro w hw
    rw [hm] at hw
    simp only [SkillResult.num.injEq] at hw
    omega
  · intro v hv
    have hp : getPoliticalSkill c false =
        SkillResult.num (max 0 (v + c.politicalSkillModifier +
          (c.attachments.map AttachmentData.political_bonus).sum +
          ((if c.isHonored then c.glory else 0) -
            (if c.isDishonored then c.glory else 0)))) := by
      simp [getPoliticalSkill, h, hv, skillFromAttachmentsPol, skillFromGlory,
        foldl_add_map_sum]
    refine ⟨hp, ?_⟩
    intro w hw
    rw [hp] at hw
    simp only [SkillResult.num.injEq] at hw
    omega

/-- Witness for C1: the spec's scenario — printed military 3, one +2
attachment, honored with glory 2 — yields effective military 7. -/
theorem effectiveSkill_formula_witness :
    getMilitarySkill honoredHostCard false = SkillResult.num 7 := by
  have h := ((effectiveSkill_formula honoredHostCard (by decide)).1 3 rfl).1
  rw [h]
  decide

/-- Claim C4 counterexample: a card whose printed military value is 0,
queried during setup: the source computes `cardData.military || undefined`
and 0 is falsy in JS, so it returns undefined rather than the raw printed
number 0 — even though the card does have a printed stat. -/
theorem printed_path_counterexample :
    zeroStatCard.phase = "setup" ∧
    zeroStatCard.cardData.military = some 0 ∧
    getMilitarySkill zeroStatCard false = SkillResult.undef := by
  decide

/-- Claim C4 (amended): during setup or on an explicit printed request,
all modifiers are bypassed; the raw printed number is returned when it is
nonzero, and undefined is returned both when the card has no printed stat
and when the printed value is 0 (JS falsiness collapses a printed 0 to
undefined). -/
theorem printed_path (c : Card) (p : Bool)
    (h : c.phase = "setup" ∨ p = true) :
    (∀ v, c.cardData.military = some v → v ≠ 0 →
      getMilitarySkill c p = SkillResult.num v) ∧
    (c.cardData.military = some 0 ∨ c.cardData.military = none →
      getMilitarySkill c p = SkillResult.undef) ∧
    (∀ v, c.cardData.political = some v → v ≠ 0 →
      getPoliticalSkill c p = SkillResult.num v) ∧
    (c.cardData.political = some 0 ∨ c.cardData.political = none →
      getPoliticalSkill c p = SkillResult.undef) := by
  have hcond : (c.phase = "setup" ∨ p = true) := h
  refine ⟨?_, ?_, ?_, ?_⟩
  · intro v hv hv0
    simp [getMilitarySkill, hcond, hv, numOrUndef, hv0]
  · rintro (hv | hv) <;> simp [getMilitarySkill, hcond, hv, numOrUndef]
  · intro v hv hv0
    simp [getPoliticalSkill, hcond, hv, numOrUndef, hv0]
  · rintro (hv | hv) <;> simp [getPoliticalSkill, hcond, hv, numOrUndef]

/-- Witness for C4 (amended): an explicit printed request on the sample
card returns its nonzero printed military 3; the setup-phase query on the
printed-zero card returns undefined. -/
theorem printed_path_witness :
    getMilitarySkill sampleCard true = SkillResult.num 3 ∧
    getMilitarySkill zeroStatCard false = SkillResult.undef := by
  constructor
  · exact (printed_path sampleCard true (Or.inr rfl)).1 3 rfl (by decide)
  · exact (printed_path zeroStatCard false (Or.inl rfl)).2.1 (Or.inl rfl)

/-- Claim C6: `leavesPlay()` on an honored card grants the controller
exactly +1 honor, clears the honored flag, and resets bowed, conflict
participation and fate; running `leavesPlay()` again on the resulting
card grants no further honor. -/
theorem leavesPlay_honored_payout (c : Card) (hH : c.isHonored = true)
    (hD : c.isDishonored = false) :
    (leavesPlay c).2.honorDelta = 1 ∧
    (leavesPlay c).1.isHonored = false ∧
    (leavesPlay c).1.bowed = false ∧
    (leavesPlay c).1.inConflict = false ∧
    (leavesPlay c).1.fate = 0 ∧
    (leavesPlay (leavesPlay c).1).2.honorDelta = 0 := by
  simp [leavesPlay, hH, hD]

/-- Witness for C6: the concrete honored sample card pays out +1 honor,
comes out cleared and reset, and a second `leavesPlay()` pays nothing. -/
theorem leavesPlay_honored_payout_witness :
    (leavesPlay honoredCard).2.honorDelta = 1 ∧
    (leavesPlay honoredCard).1.isHonored = false ∧
    (leavesPlay honoredCard).1.bowed = false ∧
    (leavesPlay honoredCard).1.inConflict = false ∧
    (leavesPlay honoredCard).1.fate = 0 ∧
    (leavesPlay (leavesPlay honoredCard).1).2.honorDelta = 0 := by
  exact leavesPlay_honored_payout honoredCard (by decide) (by decide)

/-- Claim C8: in CreepingOblivion's play ability, the `Mine` choice is
legal iff the acting player's discard pile is non-empty, the opponent
choice is legal iff an opponent exists with a non-empty discard pile, and
the dependent `cards` group selects up to 2 cards from the `discard`
location of exactly the player resolved by the prior `select` group
(`Mine` picks the acting player, any other choice the opponent). -/
theorem creepingOblivion_targeting (ctx : AbilityContext) :
    (creepingOblivionMineLegal ctx = true ↔ ctx.player.discard ≠ []) ∧
    (creepingOblivionOpponentLegal ctx = true ↔
      ∃ opp, ctx.opponent = some opp ∧ opp.discard ≠ []) ∧
    creepingOblivionCardsPlayer ctx ("Mine") = some ctx.player ∧
    (∀ choice, choice ≠ "Mine" →
      creepingOblivionCardsPlayer ctx choice = ctx.opponent) ∧
    creepingOblivionCardsGroup.dependsOnGroup = "select" ∧
    creepingOblivionCardsGroup.mode = TargetMode.upTo ∧
    creepingOblivionCardsGroup.numCards = 2 ∧
    creepingOblivionCardsGroup.location = "discard" := by
  refine ⟨?_, ?_, ?_, ?_, rfl, rfl, rfl, rfl⟩
  · simp [creepingOblivionMineLegal, List.length_pos]
  · cases hopp : ctx.opponent with
    | none => simp [creepingOblivionOpponentLegal, hopp]
    | some opp => simp [creepingOblivionOpponentLegal, hopp, List.length_pos]
  · simp [creepingOblivionCardsPlayer]
  · intro choice hchoice
    simp [creepingOblivionCardsPlayer, hchoice]

/-- Witness for C8: on a concrete context whose acting player has two
discarded cards, `Mine` is legal, and a non-`Mine` choice routes the
dependent group to the opponent. -/
theorem creepingOblivion_targeting_witness :
    creepingOblivionMineLegal
      { player := { discard := [3, 4] }, opponent := some { discard := [5] } } = true ∧
    creepingOblivionCardsPlayer
      { player := { discard := [3, 4] }, opponent := some { discard := [5] } }
      ("Theirs") = some { discard := [5] } := by
  have h := creepingOblivion_targeting
    { player := { discard := [3, 4] }, opponent := some { discard := [5] } }
  exact ⟨h.1.mpr (by decide), h.2.2.2.1 ("Theirs") (by decide)⟩

/-- Claim C9: in the deck-list endpoint's projection, `basicRules` is
false iff some card of the deck has an enhancements list whose first entry
is the empty string, and `notVerified` is true iff some card has an
enhancements list and the deck is not verified. -/
theorem deckListFlags_spec (d : Deck) :
    ((deckListFlags d).1 = false ↔
      ∃ c ∈ d.cards, ∃ l, c.enhancements = some l ∧ l.head? = some ("")) ∧
    ((deckListFlags d).2 = true ↔
      (∃ c ∈ d.cards, c.enhancements.isSome = true) ∧ d.verified = false) := by
  constructor
  · simp [deckListFlags, List.any_eq_true, cardNeedsEnhancements_iff]
  · simp [deckListFlags, List.any_eq_true]

/-- Claim C10: `useCovertToBypass(target)` is all-or-nothing: when the
source lacks the covert keyword or the target itself is covert it returns
false with both cards unchanged; otherwise it sets the target's covert
flag, records the target as the source's covertTarget, and returns true. -/
theorem useCovertToBypass_spec (src tgt : Card) :
    ((isCovert src = false ∨ isCovert tgt = true) →
      useCovertToBypass src tgt = (src, tgt, false)) ∧
    (isCovert src = true → isCovert tgt = false →
      useCovertToBypass src tgt =
        ({ src with covertTarget := some tgt.id },
          { tgt with covert := true }, true)) := by
  cases hs : isCovert src <;> cases ht : isCovert tgt <;>
    simp [useCovertToBypass, canUseCovertToBypass, canBeBypassedByCovert, hs, ht]

/-- Witness for C10: the concrete covert card bypasses the non-covert
sample card, recording it as covertTarget and flagging it covert. -/
theorem useCovertToBypass_spec_witness :
    useCovertToBypass covertCard sampleCard =
      ({ covertCard with covertTarget := some sampleCard.id },
        { sampleCard with covert := true }, true) := by
  exact (useCovertToBypass_spec covertCard sampleCard).2 (by decide) (by decide)

end Keyteki
